import Mathlib

/-!
Verification of the claude-notifications repository.

Shallow embedding of the notification-delivery core: the Zellij
notification bridge (`src/lib/zellij.js`), the CLI argument validation
(`src/bin/zellij-notify.js`), the configuration resolver
(`src/lib/config.js`), the remote-sound relay client and server and the
sound dispatcher (the notify entry points), together with theorems about
their retry, error-classification, migration and channel-gating behaviour.

External effects (the `zellij` CLI transport, the network, the
filesystem, `JSON.parse`, `new URL`) are passed in as explicit oracle
arguments; everything the repository's own code computes is translated
directly from the JavaScript source.
-/

set_option maxRecDepth 4096

namespace ClaudeNotifications

/-! ### Transport model for the Zellij bridge (src/lib/zellij.js) -/

/-- Does the first character list start with the second? -/
def charsLeadMatch : List Char → List Char → Bool
  | _, [] => true
  | [], _ :: _ => false
  | a :: as, b :: bs => a == b && charsLeadMatch as bs

/-- Does `sub` occur as a contiguous run inside `s`? -/
def charsContains (sub : List Char) : List Char → Bool
  | [] => charsLeadMatch [] sub
  | c :: rest => charsLeadMatch (c :: rest) sub || charsContains sub rest

/-- JS `s.includes(sub)`: true iff `sub` occurs as a substring of `s`. -/
def jsIncludes (s sub : String) : Bool :=
  charsContains sub.data s.data

/-- The error object thrown by a failed `execSync` of `zellij pipe`:
captured stderr (absent when nothing was captured), the error code
(`"ETIMEDOUT"` on timeout) and the error message. -/
structure PipeFailure where
  stderr : Option String
  code : Option String
  msg : String
  deriving DecidableEq, Repr

/-- Outcome of one `zellij pipe -p <plugin> -- '<json>'` invocation. -/
inductive PipeOutcome where
  | success
  | failure (f : PipeFailure)
  deriving DecidableEq, Repr

/-- What a `sendNotification` call did: returned a boolean, or threw an
error with the given message. -/
inductive SendOutcome where
  | returned (b : Bool)
  | raised (msg : String)
  deriving DecidableEq, Repr

/-- Result of a `sendNotification` call together with the list of backoff
sleeps (in milliseconds, in the order performed) between attempts. -/
structure SendTrace where
  outcome : SendOutcome
  sleeps : List Nat
  deriving DecidableEq, Repr

/-- The permanent-error message of src/lib/zellij.js lines 172-175. -/
def pluginNotFoundMsg (pluginName : String) : String :=
  "Plugin '" ++ pluginName ++ "' not found. " ++
  "Make sure the plugin is loaded in your Zellij layout."

/-- The exhaustion error of src/lib/zellij.js lines 195-203: a
distinguished message when the last error was a timeout
(`lastError.code === 'ETIMEDOUT'`), a generic one otherwise. -/
def exhaustionMsg (pluginName : String) (attempts : Nat)
    (lastCode : Option String) (lastMsg : String) : String :=
  if lastCode = some "ETIMEDOUT" then
    "Timeout sending to plugin '" ++ pluginName ++ "' after " ++
    toString attempts ++ " attempts. " ++
    "Plugin may not be loaded or is overloaded. " ++
    "Try restarting Zellij or reducing notification frequency."
  else
    "Failed to send notification after " ++ toString attempts ++
    " attempts: " ++ lastMsg

/-- Check `pipeError.stderr && pipeError.stderr.includes('no pipe')`
(src/lib/zellij.js line 171). -/
def stderrNoPipe : Option String → Bool
  | none => false
  | some s => jsIncludes s "no pipe"

/-- The retry loop of `sendNotification` (src/lib/zellij.js lines
140-206).  `transport n` is the outcome of the pipe invocation on the
0-based attempt `n`.  `fuel` counts the loop iterations still to run
(`maxRetries + 1 - attempt`); when it reaches 0 the loop has exited and
the code after it runs: throw the exhaustion error if a transient error
was recorded, otherwise `return false`.  The `go-to-tab` side call of
lines 145-157 is omitted: its exception is caught and only logged, it
never changes control flow. -/
def sendLoop (transport : Nat → PipeOutcome) (pluginName : String)
    (maxRetries retryDelay : Nat) :
    Nat → Nat → Option PipeFailure → SendTrace
  | _, 0, none => ⟨.returned false, []⟩
  | _, 0, some f =>
    ⟨.raised (exhaustionMsg pluginName (maxRetries + 1) f.code f.msg), []⟩
  | attempt, fuel + 1, _ =>
    match transport attempt with
    | .success => ⟨.returned true, []⟩
    | .failure f =>
      if stderrNoPipe f.stderr then
        ⟨.raised (pluginNotFoundMsg pluginName), []⟩
      else
        let rest :=
          sendLoop transport pluginName maxRetries retryDelay
            (attempt + 1) fuel (some f)
        if attempt < maxRetries then
          ⟨rest.outcome, retryDelay * 2 ^ attempt :: rest.sleeps⟩
        else
          rest

/-- Model of `sendNotification(notification, pluginName, options)`
of src/lib/zellij.js lines 114-207.  `sessionActive` is the result of
`isInZellijSession()`; the JSON payload construction does not influence
the control flow modelled here. -/
def sendNotification (sessionActive : Bool) (transport : Nat → PipeOutcome)
    (pluginName : String) (maxRetries retryDelay : Nat) : SendTrace :=
  if sessionActive then
    sendLoop transport pluginName maxRetries retryDelay 0 (maxRetries + 1) none
  else
    ⟨.raised "Not in a Zellij session", []⟩

/-! Scratch checks that the model matches the source on small inputs. -/

example :
    sendNotification true (fun _ => .success) "p" 2 100 =
      ⟨.returned true, []⟩ := by
  decide

example :
    sendNotification true
      (fun _ => .failure ⟨some "no pipe named notification", none, "boom"⟩)
      "p" 2 100 = ⟨.raised (pluginNotFoundMsg "p"), []⟩ := by
  decide

example :
    (sendNotification true
      (fun _ => .failure ⟨some "busy", some "ETIMEDOUT", "timed out"⟩)
      "p" 2 100).sleeps = [100, 200] := by
  decide

/-! ### Helper lemmas about the retry loop -/

/-- Once a transient failure has been recorded, the loop can only return
`true` or raise — it can never fall through to `return false`. -/
lemma sendLoop_some_ne_returned_false (transport : Nat → PipeOutcome)
    (pluginName : String) (maxRetries retryDelay : Nat) :
    ∀ (fuel attempt : Nat) (f : PipeFailure),
      (sendLoop transport pluginName maxRetries retryDelay attempt fuel
          (some f)).outcome ≠ .returned false := by
  intro fuel
  induction fuel with
  | zero => intro attempt f h; simp [sendLoop] at h
  | succ n ih =>
    intro attempt f h
    rw [sendLoop] at h
    rcases hT : transport attempt with _ | g <;> rw [hT] at h
    · simp at h
    · by_cases hnp : stderrNoPipe g.stderr = true
      · simp [hnp] at h
      · simp only [Bool.not_eq_true] at hnp
        simp only [hnp, if_false, Bool.false_eq_true] at h
        by_cases hlt : attempt < maxRetries
        · simp only [hlt, if_true] at h
          exact ih (attempt + 1) g h
        · simp only [hlt, if_false] at h
          exact ih (attempt + 1) g h

/-- If every attempt from `attempt` up to `maxRetries` fails transiently,
the loop ends by raising the exhaustion error built from the failure of
the last attempt. -/
lemma sendLoop_some_all_transient (transport : Nat → PipeOutcome)
    (pluginName : String) (maxRetries retryDelay : Nat)
    (fs : Nat → PipeFailure)
    (hT : ∀ i, i ≤ maxRetries → transport i = .failure (fs i))
    (hN : ∀ i, i ≤ maxRetries → stderrNoPipe (fs i).stderr = false) :
    ∀ (fuel attempt : Nat), attempt + fuel = maxRetries + 1 → 1 ≤ attempt →
      (sendLoop transport pluginName maxRetries retryDelay attempt fuel
          (some (fs (attempt - 1)))).outcome =
        .raised (exhaustionMsg pluginName (maxRetries + 1)
          (fs maxRetries).code (fs maxRetries).msg) := by
  intro fuel
  induction fuel with
  | zero =>
    intro attempt hsum _
    have : attempt = maxRetries + 1 := by omega
    subst this
    simp [sendLoop]
  | succ n ih =>
    intro attempt hsum hpos
    have hle : attempt ≤ maxRetries := by omega
    have ihn := ih (attempt + 1) (by omega) (by omega)
    simp only [Nat.add_sub_cancel] at ihn
    rw [sendLoop, hT attempt hle]
    by_cases hlt : attempt < maxRetries <;>
      simp [hN attempt hle, hlt, ihn]

/-! ### Claims C1 and C2 -/

/-- C1: for every notification/plugin, if the pipe transport fails with a
transient (non-permanent) error on the first two attempts and succeeds on
the third, then with the defaults `maxRetries = 2`, `retryDelay = 100`
`sendNotification` returns `true` after exactly two backoff sleeps of
100 ms and 200 ms (`retryDelay * 2 ^ attempt`) between sequential
attempts. -/
theorem sendNotification_two_transient_then_success
    (transport : Nat → PipeOutcome) (pluginName : String)
    (f0 f1 : PipeFailure)
    (h0 : transport 0 = .failure f0) (h1 : transport 1 = .failure f1)
    (hn0 : stderrNoPipe f0.stderr = false)
    (hn1 : stderrNoPipe f1.stderr = false)
    (h2 : transport 2 = .success) :
    sendNotification true transport pluginName 2 100 =
      ⟨.returned true, [100, 200]⟩ := by
  simp [sendNotification, sendLoop, h0, h1, h2, hn0, hn1]

/-- A concrete transport that fails transiently on attempts 0 and 1 and
succeeds on attempt 2. -/
def transportTwoTransient : Nat → PipeOutcome := fun n =>
  if n < 2 then .failure ⟨some "pipe is busy", none, "Command failed"⟩
  else .success

theorem sendNotification_two_transient_then_success_witness :
    sendNotification true transportTwoTransient "zellij_visual_notifications"
        2 100 = ⟨.returned true, [100, 200]⟩ :=
  sendNotification_two_transient_then_success transportTwoTransient
    "zellij_visual_notifications"
    ⟨some "pipe is busy", none, "Command failed"⟩
    ⟨some "pipe is busy", none, "Command failed"⟩
    rfl rfl (by decide) (by decide) rfl

/-- C2: error handling of `sendNotification` in an active session, for any
`maxRetries ≥ 0`: (1) a first-attempt failure whose captured stderr
contains `"no pipe"` raises immediately with the message naming the
missing plugin, with zero retries and zero backoff sleeps; (2) if all
`maxRetries + 1` attempts fail transiently it raises the exhaustion error
enumerating the attempt count (the distinguished timeout message exactly
when the last error's code was `ETIMEDOUT`); (3) it never returns
`false`. -/
theorem sendNotification_error_handling :
    (∀ (transport : Nat → PipeOutcome) (pluginName : String)
        (maxRetries retryDelay : Nat) (f : PipeFailure),
        transport 0 = .failure f → stderrNoPipe f.stderr = true →
        sendNotification true transport pluginName maxRetries retryDelay =
          ⟨.raised (pluginNotFoundMsg pluginName), []⟩) ∧
    (∀ (transport : Nat → PipeOutcome) (pluginName : String)
        (maxRetries retryDelay : Nat) (fs : Nat → PipeFailure),
        (∀ i, i ≤ maxRetries → transport i = .failure (fs i)) →
        (∀ i, i ≤ maxRetries → stderrNoPipe (fs i).stderr = false) →
        (sendNotification true transport pluginName maxRetries
            retryDelay).outcome =
          .raised (exhaustionMsg pluginName (maxRetries + 1)
            (fs maxRetries).code (fs maxRetries).msg)) ∧
    (∀ (transport : Nat → PipeOutcome) (pluginName : String)
        (maxRetries retryDelay : Nat),
        (sendNotification true transport pluginName maxRetries
            retryDelay).outcome ≠ .returned false) := by
  refine ⟨?_, ?_, ?_⟩
  · intro transport pluginName maxRetries retryDelay f h0 hnp
    simp [sendNotification, sendLoop, h0, hnp]
  · intro transport pluginName maxRetries retryDelay fs hT hN
    have h0 := hT 0 (Nat.zero_le _)
    have hn0 := hN 0 (Nat.zero_le _)
    have key := sendLoop_some_all_transient transport pluginName maxRetries
      retryDelay fs hT hN maxRetries 1 (by omega) (by omega)
    simp only [Nat.sub_self] at key
    rw [sendNotification, if_pos rfl, sendLoop, h0]
    by_cases hlt : 0 < maxRetries <;> simp [hn0, hlt, key]
  · intro transport pluginName maxRetries retryDelay h
    rw [sendNotification, if_pos rfl, sendLoop] at h
    rcases hT : transport 0 with _ | g <;> rw [hT] at h
    · simp at h
    · by_cases hnp : stderrNoPipe g.stderr = true
      · simp [hnp] at h
      · simp only [Bool.not_eq_true] at hnp
        simp only [hnp, Bool.false_eq_true, if_false] at h
        by_cases hlt : 0 < maxRetries
        · simp only [hlt, if_true] at h
          exact sendLoop_some_ne_returned_false transport pluginName
            maxRetries retryDelay maxRetries 1 g h
        · simp only [hlt, if_false] at h
          exact sendLoop_some_ne_returned_false transport pluginName
            maxRetries retryDelay maxRetries 1 g h

/-- A transport that always fails with `"no pipe"` in stderr. -/
def transportNoPipe : Nat → PipeOutcome := fun _ =>
  .failure ⟨some "no pipe named notification", none, "Command failed"⟩

/-- A transport that always times out. -/
def transportTimeout : Nat → PipeOutcome := fun _ =>
  .failure ⟨some "busy", some "ETIMEDOUT", "zellij pipe timed out"⟩

theorem sendNotification_error_handling_witness :
    (sendNotification true transportNoPipe "zellij_visual_notifications"
        2 100 = ⟨.raised (pluginNotFoundMsg "zellij_visual_notifications"),
          []⟩) ∧
    ((sendNotification true transportTimeout "zellij_visual_notifications"
        2 100).outcome =
      .raised (exhaustionMsg "zellij_visual_notifications" 3
        (some "ETIMEDOUT") "zellij pipe timed out")) ∧
    ((sendNotification true transportTimeout "zellij_visual_notifications"
        2 100).outcome ≠ .returned false) :=
  ⟨sendNotification_error_handling.1 transportNoPipe
      "zellij_visual_notifications" 2 100
      ⟨some "no pipe named notification", none, "Command failed"⟩
      rfl (by decide),
   sendNotification_error_handling.2.1 transportTimeout
      "zellij_visual_notifications" 2 100
      (fun _ => ⟨some "busy", some "ETIMEDOUT", "zellij pipe timed out"⟩)
      (fun _ _ => rfl) (fun _ _ => rfl),
   sendNotification_error_handling.2.2 transportTimeout
      "zellij_visual_notifications" 2 100⟩

/-! ### Tab model, resolveTab and sendNotificationToAllTabs
(src/lib/zellij.js) -/

/-- A Zellij tab as parsed out of `zellij action dump-layout` by
`getTabs` (src/lib/zellij.js lines 35-70): 1-based index, display name,
focus flag.  (Panes are not parsed by the source.) -/
structure Tab where
  index : Nat
  name : String
  active : Bool
  deriving DecidableEq, Repr

/-- JS `parseInt(s, 10)`: skip leading whitespace, optional sign, then
read leading decimal digits; `none` models `NaN` (no digit found). -/
def parseIntJS (s : String) : Option Int :=
  let cs := s.data.dropWhile Char.isWhitespace
  let core : List Char → Option Nat := fun ds =>
    let digits := ds.takeWhile Char.isDigit
    if digits.isEmpty then none
    else some (digits.foldl (fun acc c => acc * 10 + (c.toNat - 48)) 0)
  match cs with
  | '-' :: rest => (core rest).map (fun n => -(n : Int))
  | '+' :: rest => (core rest).map (fun n => (n : Int))
  | _ => (core cs).map (fun n => (n : Int))

/-- A tab identifier as passed to `resolveTab`: a JS number or string. -/
inductive TabId where
  | num (n : Int)
  | str (s : String)
  deriving DecidableEq, Repr

/-- Model of `resolveTab(identifier)` (src/lib/zellij.js lines 77-97), with the
current tab list (the result of `getTabs()`) passed explicitly: a number
is returned as-is with no bounds check; a string is first matched exactly
against tab names, then parsed as a number, and otherwise raises
"Tab not found". -/
def resolveTab (identifier : TabId) (tabs : List Tab) : Except String Int :=
  match identifier with
  | .num n => .ok n
  | .str s =>
    match tabs.find? (fun t => t.name == s) with
    | some t => .ok (t.index : Int)
    | none =>
      match parseIntJS s with
      | some n => .ok n
      | none => .error ("Tab not found: " ++ s)

/-- The notification payload handed to the bridge, as far as the control
flow modelled here inspects it: the broadcast loop overrides `tabIndex`
on a per-tab copy, all other fields ride along unchanged. -/
structure Notification where
  type : Option String := none
  message : String := ""
  title : Option String := none
  source : Option String := none
  priority : Option String := none
  ttl : Option Int := none
  tabIndex : Option Nat := none
  deriving DecidableEq, Repr

/-- Result of `sendNotificationToAllTabs`: the aggregate record of the
broadcast loop, or (when tab enumeration yielded nothing) the result of
the single current-tab fallback `sendNotification` call. -/
inductive AllTabsResult where
  | aggregate (total : Nat) (success : Nat) (errors : List (String × String))
  | single (fallback : Except String Bool)
  deriving Repr

/-- The broadcast loop of `sendNotificationToAllTabs` (src/lib/zellij.js
lines 223-233): send a per-tab copy with that tab's index to every tab in
order, counting successes and collecting `{tab, error}` pairs, never
stopping early. -/
def sendAllLoop (notification : Notification)
    (send : Notification → Except String Bool) :
    List Tab → Nat × List (String × String)
  | [] => (0, [])
  | tab :: rest =>
    match send { notification with tabIndex := some tab.index } with
    | .ok _ =>
      let r := sendAllLoop notification send rest
      (r.1 + 1, r.2)
    | .error e =>
      let r := sendAllLoop notification send rest
      (r.1, (tab.name, e) :: r.2)

/-- Model of `sendNotificationToAllTabs(notification, pluginName)`
(src/lib/zellij.js lines 212-240).  `tabs` is the result of `getTabs()`;
`send` is the effect of one `sendNotification` call on a payload (`.ok`
when it returns, `.error` when it throws); `fallback` is the result of
the current-tab `sendNotification` call used when no tabs were
enumerated. -/
def sendNotificationToAllTabs (tabs : List Tab)
    (notification : Notification)
    (send : Notification → Except String Bool)
    (fallback : Except String Bool) : AllTabsResult :=
  if tabs.isEmpty then .single fallback
  else
    let r := sendAllLoop notification send tabs
    .aggregate tabs.length r.1 r.2

/-! ### Claims C3 and C4 -/

/-- C3: `resolveTab` returns a numeric identifier unchanged with no
bounds check; for a string it returns the exactly-matching tab's index,
else the parsed number, else raises "Tab not found" naming the
identifier; on the tab list `[{1, Backend}, {2, Frontend}]`, `"Backend"`
yields 1, `"3"` yields 3 and `"Database"` raises. -/
theorem resolveTab_spec :
    (∀ (n : Int) (tabs : List Tab), resolveTab (.num n) tabs = .ok n) ∧
    (resolveTab (.str "Backend")
        [⟨1, "Backend", false⟩, ⟨2, "Frontend", false⟩] = .ok 1) ∧
    (resolveTab (.str "3")
        [⟨1, "Backend", false⟩, ⟨2, "Frontend", false⟩] = .ok 3) ∧
    (resolveTab (.str "Database")
        [⟨1, "Backend", false⟩, ⟨2, "Frontend", false⟩] =
      .error "Tab not found: Database") :=
  ⟨fun _ _ => rfl, rfl, rfl, rfl⟩

/-- The success count of the broadcast loop counts exactly the tabs whose
per-tab send succeeded. -/
lemma sendAllLoop_fst (notification : Notification)
    (send : Notification → Except String Bool) (tabs : List Tab) :
    (sendAllLoop notification send tabs).1 =
      tabs.countP (fun t =>
        (send { notification with tabIndex := some t.index }).toBool) := by
  induction tabs with
  | nil => rfl
  | cons tab rest ih =>
    rw [sendAllLoop]
    rcases hs : send { notification with tabIndex := some tab.index }
      with e | b <;> simp [List.countP_cons, hs, ih, Except.toBool]

/-- The error list of the broadcast loop holds one `(tab name, message)`
pair per failed tab, in tab order. -/
lemma sendAllLoop_snd (notification : Notification)
    (send : Notification → Except String Bool) (tabs : List Tab) :
    (sendAllLoop notification send tabs).2 =
      tabs.filterMap (fun t =>
        match send { notification with tabIndex := some t.index } with
        | .ok _ => none
        | .error e => some (t.name, e)) := by
  induction tabs with
  | nil => rfl
  | cons tab rest ih =>
    rw [sendAllLoop]
    rcases hs : send { notification with tabIndex := some tab.index }
      with e | b <;> simp [hs, ih]

/-- C4: for a nonempty tab list the broadcast sends one per-tab copy with
that tab's index to every tab (the success count and error list are
exactly those determined by the send outcome on every single tab — no
early abort), returning `{total, success, errors}`; for an empty tab list
it degrades to the single current-tab send. -/
theorem sendNotificationToAllTabs_spec :
    (∀ (tabs : List Tab) (notification : Notification)
        (send : Notification → Except String Bool)
        (fallback : Except String Bool), tabs ≠ [] →
        sendNotificationToAllTabs tabs notification send fallback =
          .aggregate tabs.length
            (tabs.countP (fun t =>
              (send { notification with tabIndex := some t.index }).toBool))
            (tabs.filterMap (fun t =>
              match send { notification with tabIndex := some t.index } with
              | .ok _ => none
              | .error e => some (t.name, e)))) ∧
    (∀ (notification : Notification)
        (send : Notification → Except String Bool)
        (fallback : Except String Bool),
        sendNotificationToAllTabs [] notification send fallback =
          .single fallback) := by
  constructor
  · intro tabs notification send fallback hne
    rw [sendNotificationToAllTabs, if_neg (by simpa using hne)]
    simp only [sendAllLoop_fst, sendAllLoop_snd]
  · intro notification send fallback
    rfl

/-- Concrete broadcast over three tabs where exactly tab 2's send fails:
total 3, success 2, errors `[(tab 2's name, its error)]`, with tabs 1 and
3 both attempted (they are counted as successes). -/
theorem sendNotificationToAllTabs_spec_witness :
    sendNotificationToAllTabs
        [⟨1, "Backend", false⟩, ⟨2, "Frontend", true⟩, ⟨3, "Logs", false⟩]
        { message := "build done" }
        (fun n => if n.tabIndex = some 2 then .error "pipe broke"
          else .ok true)
        (.ok true) =
      .aggregate 3 2 [("Frontend", "pipe broke")] := by
  rw [sendNotificationToAllTabs_spec.1
    [⟨1, "Backend", false⟩, ⟨2, "Frontend", true⟩, ⟨3, "Logs", false⟩]
    { message := "build done" }
    (fun n => if n.tabIndex = some 2 then .error "pipe broke" else .ok true)
    (.ok true) (by simp)]
  rfl

/-! ### CLI argument parsing of src/bin/zellij-notify.js -/

/-- JS `s.startsWith(pre)`. -/
def strStarts (s pre : String) : Bool :=
  charsLeadMatch s.data pre.data

/-- The `NOTIFICATION_TYPES` constant (src/bin/zellij-notify.js line
21). -/
def NOTIFICATION_TYPES : List String :=
  ["success", "error", "warning", "info", "attention", "progress"]

/-- The `PRIORITIES` constant (src/bin/zellij-notify.js line 22). -/
def PRIORITIES : List String :=
  ["low", "normal", "high", "critical"]

/-- JS `parseFloat(s)` for plain decimal forms (optional sign, integer
digits, optional fractional digits), which is all the CLI ever feeds it;
`none` models `NaN`.  Exponent and `Infinity` spellings of this platform
builtin are outside the inputs the repository handles and are not
modelled. -/
def parseFloatJS (s : String) : Option ℚ :=
  let cs := s.data.dropWhile Char.isWhitespace
  let core : List Char → Option ℚ := fun ds =>
    let intDigits := ds.takeWhile Char.isDigit
    let rest := ds.drop intDigits.length
    let fracDigits :=
      match rest with
      | '.' :: tl => tl.takeWhile Char.isDigit
      | _ => []
    if intDigits.isEmpty && fracDigits.isEmpty then none
    else
      let ipart : ℚ :=
        (intDigits.foldl (fun acc c => acc * 10 + (c.toNat - 48)) 0 : Nat)
      let fpart : ℚ :=
        (fracDigits.foldl (fun acc c => acc * 10 + (c.toNat - 48)) 0 : Nat) /
          ((10 : ℚ) ^ fracDigits.length)
      some (ipart + fpart)
  match cs with
  | '-' :: rest => (core rest).map (fun q => -q)
  | '+' :: rest => core rest
  | _ => core cs

/-- The `options` record built by `parseArgs` (src/bin/zellij-notify.js
lines 140-154).  `none` stands for JS `null`/`undefined`. -/
structure ZnOptions where
  message : Option String := none
  tabName : Option String := none
  tabIndex : Option Int := none
  all : Bool := false
  type : String := "info"
  priority : String := "normal"
  title : Option String := some "Notification"
  ttl : ℚ := 300
  dismissable : Bool := false
  pluginName : Option String := some "zellij_visual_notifications"
  listTabs : Bool := false
  help : Bool := false
  deriving DecidableEq, Repr

/-- The invalid-type error of src/bin/zellij-notify.js line 193. -/
def invalidTypeMsg (v : String) : String :=
  "Invalid type: " ++ v ++ ". Must be one of: " ++
    String.intercalate ", " NOTIFICATION_TYPES

/-- The invalid-priority error of src/bin/zellij-notify.js line 201. -/
def invalidPriorityMsg (v : String) : String :=
  "Invalid priority: " ++ v ++ ". Must be one of: " ++
    String.intercalate ", " PRIORITIES

/-- The argument loop of `parseArgs` (src/bin/zellij-notify.js lines
156-242).  `.error` models a thrown exception; `-h`/`--help` and
`-l`/`--list-tabs` return early.  A value-taking flag at the end of the
argument list reads JS `undefined`, which fails enum/number validation
and leaves optional strings unset, exactly as `args[++i]` does. -/
def parseArgsLoop : ZnOptions → List String → Except String ZnOptions
  | opts, [] => .ok opts
  | opts, arg :: rest =>
    if arg = "-h" ∨ arg = "--help" then
      .ok { opts with help := true }
    else if arg = "-l" ∨ arg = "--list-tabs" then
      .ok { opts with listTabs := true }
    else if arg = "-n" ∨ arg = "--tab-name" then
      match rest with
      | [] => parseArgsLoop { opts with tabName := none } []
      | v :: rest' => parseArgsLoop { opts with tabName := some v } rest'
    else if arg = "-i" ∨ arg = "--tab-index" then
      match rest with
      | [] => .error "Tab index must be a number"
      | v :: rest' =>
        match parseIntJS v with
        | some n => parseArgsLoop { opts with tabIndex := some n } rest'
        | none => .error "Tab index must be a number"
    else if arg = "-a" ∨ arg = "--all" then
      parseArgsLoop { opts with all := true } rest
    else if arg = "-t" ∨ arg = "--type" then
      match rest with
      | [] => .error (invalidTypeMsg "undefined")
      | v :: rest' =>
        if NOTIFICATION_TYPES.contains v then
          parseArgsLoop { opts with type := v } rest'
        else .error (invalidTypeMsg v)
    else if arg = "-p" ∨ arg = "--priority" then
      match rest with
      | [] => .error (invalidPriorityMsg "undefined")
      | v :: rest' =>
        if PRIORITIES.contains v then
          parseArgsLoop { opts with priority := v } rest'
        else .error (invalidPriorityMsg v)
    else if arg = "--title" then
      match rest with
      | [] => parseArgsLoop { opts with title := none } []
      | v :: rest' => parseArgsLoop { opts with title := some v } rest'
    else if arg = "--ttl" then
      match rest with
      | [] => .error "TTL must be a positive number"
      | v :: rest' =>
        match parseFloatJS v with
        | some q =>
          if q < 0 then .error "TTL must be a positive number"
          else parseArgsLoop { opts with ttl := q } rest'
        | none => .error "TTL must be a positive number"
    else if arg = "-d" ∨ arg = "--dismissable" then
      parseArgsLoop { opts with dismissable := true } rest
    else if arg = "-q" ∨ arg = "--quick" then
      parseArgsLoop { opts with ttl := 5 } rest
    else if arg = "--plugin" then
      match rest with
      | [] => parseArgsLoop { opts with pluginName := none } []
      | v :: rest' => parseArgsLoop { opts with pluginName := some v } rest'
    else if strStarts arg "-" then
      .error ("Unknown option: " ++ arg)
    else
      parseArgsLoop { opts with message := some arg } rest

/-- Model of `parseArgs(args)` starting from the defaults. -/
def parseArgs (args : List String) : Except String ZnOptions :=
  parseArgsLoop {} args

/-! ### Claim C5 -/

/-- A non-flag argument is taken as the message. -/
lemma parseArgsLoop_message (opts : ZnOptions) (msg : String)
    (hm : strStarts msg "-" = false) :
    parseArgsLoop opts [msg] = .ok { opts with message := some msg } := by
  have ne : ∀ f : String, strStarts f "-" = true → ¬ msg = f := by
    intro f hf he
    rw [he, hf] at hm
    exact Bool.true_eq_false.mp hm
  rw [parseArgsLoop]
  simp [ne "-h" rfl, ne "--help" rfl, ne "-l" rfl, ne "--list-tabs" rfl,
    ne "-n" rfl, ne "--tab-name" rfl, ne "-i" rfl, ne "--tab-index" rfl,
    ne "-a" rfl, ne "--all" rfl, ne "-t" rfl, ne "--type" rfl,
    ne "-p" rfl, ne "--priority" rfl, ne "--title" rfl, ne "--ttl" rfl,
    ne "-d" rfl, ne "--dismissable" rfl, ne "-q" rfl, ne "--quick" rfl,
    ne "--plugin" rfl, hm]
  rfl

/-- C5: `parseArgs` rejects every `type` outside the six-value
enumeration and every `priority` outside the four-value enumeration with
an error naming the allowed set, before any dispatch; every valid
`type` × `priority` pair is accepted unchanged (no coercion). -/
theorem parseArgs_enum_validation :
    (∀ (v : String) (rest : List String),
        NOTIFICATION_TYPES.contains v = false →
        parseArgs ("-t" :: v :: rest) =
          .error ("Invalid type: " ++ v ++ ". Must be one of: " ++
            "success, error, warning, info, attention, progress")) ∧
    (∀ (v : String) (rest : List String),
        PRIORITIES.contains v = false →
        parseArgs ("-p" :: v :: rest) =
          .error ("Invalid priority: " ++ v ++ ". Must be one of: " ++
            "low, normal, high, critical")) ∧
    (∀ (t p msg : String),
        NOTIFICATION_TYPES.contains t = true →
        PRIORITIES.contains p = true →
        strStarts msg "-" = false →
        parseArgs ["-t", t, "-p", p, msg] =
          .ok { type := t, priority := p, message := some msg }) := by
  refine ⟨?_, ?_, ?_⟩
  · intro v rest hv
    rw [parseArgs, parseArgsLoop, hv]
    rfl
  · intro v rest hv
    rw [parseArgs, parseArgsLoop, hv]
    rfl
  · intro t p msg ht hp hm
    rw [parseArgs, parseArgsLoop, ht]
    show parseArgsLoop { type := t } ["-p", p, msg] =
      .ok { type := t, priority := p, message := some msg }
    rw [parseArgsLoop, hp]
    show parseArgsLoop { type := t, priority := p } [msg] =
      .ok { type := t, priority := p, message := some msg }
    exact parseArgsLoop_message _ msg hm

theorem parseArgs_enum_validation_witness :
    (parseArgs ["-t", "fatal"] =
      .error ("Invalid type: " ++ "fatal" ++ ". Must be one of: " ++
        "success, error, warning, info, attention, progress")) ∧
    (parseArgs ["-p", "urgent", "hello"] =
      .error ("Invalid priority: " ++ "urgent" ++ ". Must be one of: " ++
        "low, normal, high, critical")) ∧
    (parseArgs ["-t", "success", "-p", "critical", "deploy done"] =
      .ok { type := "success", priority := "critical",
            message := some "deploy done" }) :=
  ⟨parseArgs_enum_validation.1 "fatal" [] rfl,
   parseArgs_enum_validation.2.1 "urgent" ["hello"] rfl,
   parseArgs_enum_validation.2.2 "success" "critical" "deploy done"
      rfl rfl rfl⟩

/-! ### Remote sound relay (the notify entry point with remote-sound
support, src/unnamed/part_001) -/

/-- JS truthiness of an optional string (absent, `""` falsy). -/
def strTruthy : Option String → Bool
  | none => false
  | some s => !(s == "")

/-- JS truthiness of an optional number (absent, `0` falsy). -/
def natTruthy : Option Nat → Bool
  | none => false
  | some n => !(n == 0)

/-- The `remoteSound` section of the user configuration as
`resolveRemoteSoundConfig` reads it (`config.remoteSound || {}`): every
key optional/defaulted. -/
structure RemoteSoundUserCfg where
  enabled : Bool := false
  url : Option String := none
  port : Option Nat := none
  replaceSound : Bool := false
  timeoutMs : Option Nat := none
  deriving DecidableEq, Repr

/-- The resolved remote target returned by
`resolveRemoteSoundConfig`. -/
structure ResolvedRemote where
  url : String
  replaceSound : Bool
  timeoutMs : Nat
  deriving DecidableEq, Repr

/-- Model of `resolveRemoteSoundConfig()` (src/unnamed/part_001 lines 85-117).
`envUrl` models `CLAUDE_NOTIFY_REMOTE_URL || CLAUDE_NOTIFY_REMOTE`,
`envPort` models `CLAUDE_NOTIFY_REMOTE_PORT`.  Enabled only when some
explicit switch, URL or port is truthy; a bare port expands to the
default loopback URL; `timeoutMs` falls back to 1500 when absent or 0
(`Number(...) || 1500`). -/
def resolveRemoteSoundConfig (rc : RemoteSoundUserCfg)
    (envUrl envPort : Option String) : Option ResolvedRemote :=
  let enabled := rc.enabled || strTruthy envUrl || strTruthy envPort ||
    strTruthy rc.url || natTruthy rc.port
  if !enabled then none
  else
    let port : Option String :=
      if strTruthy envPort then envPort
      else if natTruthy rc.port then rc.port.map toString
      else none
    let url : Option String :=
      if strTruthy envUrl then envUrl
      else if strTruthy rc.url then rc.url
      else
        match port with
        | some p => some ("http://127.0.0.1:" ++ p ++ "/notify")
        | none => none
    match url with
    | none => none
    | some u =>
      some ⟨u,
        rc.replaceSound,
        match rc.timeoutMs with
        | none => 1500
        | some 0 => 1500
        | some t => t⟩

/-- What the network does with the relay POST: connection error, the
request timing out, or an HTTP response with the given status code. -/
inductive NetResult where
  | connError
  | timedOut
  | response (status : Nat)
  deriving DecidableEq, Repr

/-- Model of `sendJson(url, payload, timeoutMs)` (src/unnamed/part_001 lines
119-159): resolves `false` when `new URL(url)` throws (`urlValid`
models this platform builtin), on request error, on timeout, and on a
non-2xx status; resolves `true` exactly on 2xx.  Never rejects.  The
second component records whether a network request was issued at all. -/
def sendJson (urlValid : Bool) (net : NetResult) : Bool × Bool :=
  if !urlValid then (false, false)
  else
    match net with
    | .connError => (false, true)
    | .timedOut => (false, true)
    | .response s => (decide (200 ≤ s) && decide (s < 300), true)

/-- Model of `triggerRemoteSound(soundType)` (src/unnamed/part_001 lines
161-176): no-op returning `false` unless a remote target resolves AND an
SSH-like session is detected; otherwise POSTs the RemoteSoundMessage and
returns `replaceSound` if delivered, `false` if not.  The payload's
contents do not influence the returned value.  The second component
records whether a network request was issued. -/
def triggerRemoteSound (rc : RemoteSoundUserCfg)
    (envUrl envPort : Option String) (sshSession : Bool)
    (urlValid : Bool) (net : NetResult) : Bool × Bool :=
  match resolveRemoteSoundConfig rc envUrl envPort with
  | none => (false, false)
  | some cfg =>
    if !sshSession then (false, false)
    else
      let r := sendJson urlValid net
      (if r.1 then cfg.replaceSound else false, r.2)

/-! ### Claim C6 -/

/-- C6: the relay client returns `false` with no network call unless a
remote target is configured and an SSH-like session is detected; swallows
network errors, timeouts and non-2xx responses as `false`; and returns
`true` only when the POST got a 2xx response and the configuration's
`replaceSound` flag is set. -/
theorem triggerRemoteSound_spec :
    (∀ (rc : RemoteSoundUserCfg) (envUrl envPort : Option String)
        (ssh urlValid : Bool) (net : NetResult),
        resolveRemoteSoundConfig rc envUrl envPort = none ∨ ssh = false →
        triggerRemoteSound rc envUrl envPort ssh urlValid net =
          (false, false)) ∧
    (∀ (rc : RemoteSoundUserCfg) (envUrl envPort : Option String)
        (ssh urlValid : Bool) (net : NetResult),
        (net = .connError ∨ net = .timedOut ∨
          ∃ s, net = .response s ∧ ¬(200 ≤ s ∧ s < 300)) →
        (triggerRemoteSound rc envUrl envPort ssh urlValid net).1 =
          false) ∧
    (∀ (rc : RemoteSoundUserCfg) (envUrl envPort : Option String)
        (ssh urlValid : Bool) (net : NetResult),
        (triggerRemoteSound rc envUrl envPort ssh urlValid net).1 = true →
        ∃ cfg s, resolveRemoteSoundConfig rc envUrl envPort = some cfg ∧
          cfg.replaceSound = true ∧ ssh = true ∧
          net = .response s ∧ 200 ≤ s ∧ s < 300) := by
  refine ⟨?_, ?_, ?_⟩
  · intro rc envUrl envPort ssh urlValid net h
    rcases h with h | h
    · simp [triggerRemoteSound, h]
    · subst h
      rcases hr : resolveRemoteSoundConfig rc envUrl envPort with _ | cfg <;>
        simp [triggerRemoteSound, hr]
  · intro rc envUrl envPort ssh urlValid net h
    rcases hr : resolveRemoteSoundConfig rc envUrl envPort with _ | cfg
    · simp [triggerRemoteSound, hr]
    · rcases h with h | h | ⟨s, h, hs⟩ <;> subst h <;>
        cases ssh <;> cases urlValid <;>
        simp_all [triggerRemoteSound, hr, sendJson]
  · intro rc envUrl envPort ssh urlValid net h
    rw [triggerRemoteSound] at h
    rcases hr : resolveRemoteSoundConfig rc envUrl envPort with _ | cfg <;>
      rw [hr] at h
    · simp at h
    · cases ssh
      · simp at h
      · cases urlValid
        · simp [sendJson] at h
        · rcases net with _ | _ | s
          · simp [sendJson] at h
          · simp [sendJson] at h
          · simp [sendJson] at h
            exact ⟨cfg, s, rfl, h.2, rfl, rfl, h.1.1, h.1.2⟩

/-- A concrete remote-sound configuration: enabled with a bare port and
`replaceSound` set. -/
def remoteCfgSample : RemoteSoundUserCfg :=
  { enabled := true, port := some 17777, replaceSound := true }

theorem triggerRemoteSound_spec_witness :
    (triggerRemoteSound {} none none false true (.response 204) =
      (false, false)) ∧
    ((triggerRemoteSound remoteCfgSample none none true true
        .timedOut).1 = false) ∧
    (∃ cfg s,
      resolveRemoteSoundConfig remoteCfgSample none none = some cfg ∧
      cfg.replaceSound = true ∧ true = true ∧
      NetResult.response 204 = .response s ∧ 200 ≤ s ∧ s < 300) :=
  ⟨triggerRemoteSound_spec.1 {} none none false true (.response 204)
      (.inl rfl),
   triggerRemoteSound_spec.2.1 remoteCfgSample none none true true
      .timedOut (.inr (.inl rfl)),
   triggerRemoteSound_spec.2.2 remoteCfgSample none none true true
      (.response 204) (by decide)⟩

/-! ### Remote sound listener (startRemoteListener,
src/unnamed/part_001 lines 178-232) -/

/-- What serving one HTTP request did: a response with status code,
whether the response body is empty, whether a local sound play was
triggered, and whether the server was closed afterwards (`--once`); or
the connection was destroyed mid-body, after consuming the given number
of data chunks and triggering nothing. -/
inductive ListenerResult where
  | response (status : Nat) (bodyEmpty : Bool) (soundPlayed : Bool)
      (serverClosed : Bool)
  | destroyed (chunksConsumed : Nat)
  deriving DecidableEq, Repr

/-- The body-accumulation loop (lines 196-202): append each chunk to
`body` and destroy the connection as soon as the accumulated length
exceeds `1024 * 64`.  Returns the full body, or the number of chunks
consumed before the abort. -/
def accumulateBody (body : String) (consumed : Nat) :
    List String → Except Nat String
  | [] => .ok body
  | chunk :: rest =>
    let body := body ++ chunk
    if 1024 * 64 < body.length then .error (consumed + 1)
    else accumulateBody body (consumed + 1) rest

/-- One request served by the `startRemoteListener` HTTP handler
(src/unnamed/part_001 lines 189-227).  `chunks` are the request body's
data events; `parseOk body` models whether `JSON.parse(body)` succeeds
(a platform builtin); `listenOnce` is the `--once` flag.  Wrong
method/path get 404; an overlong body destroys the connection before the
remaining chunks are read; an empty body stands for `{}` and skips the
parse; a malformed body gets 400 with no sound; otherwise a local sound
is played, 204 with empty body is sent, and in `--once` mode the server
is closed. -/
def handleRequest (method url : String) (chunks : List String)
    (parseOk : String → Bool) (listenOnce : Bool) : ListenerResult :=
  if ¬(method = "POST" ∧ url = "/notify") then
    .response 404 true false false
  else
    match accumulateBody "" 0 chunks with
    | .error consumed => .destroyed consumed
    | .ok body =>
      if body ≠ "" ∧ parseOk body = false then
        .response 400 true false false
      else
        .response 204 true true listenOnce

/-! ### Claim C7 -/

/-- Total length of a list of body chunks. -/
def chunksLen (chunks : List String) : Nat :=
  (chunks.map String.length).sum

/-- Concatenation of all body chunks (the fully buffered body). -/
def concatChunks : List String → String
  | [] => ""
  | c :: rest => c ++ concatChunks rest

/-- When the total body fits under the cap, accumulation reads every
chunk and returns the concatenated body. -/
lemma accumulateBody_ok (chunks : List String) :
    ∀ (body : String) (consumed : Nat),
      body.length + chunksLen chunks ≤ 1024 * 64 →
      accumulateBody body consumed chunks =
        .ok (body ++ concatChunks chunks) := by
  induction chunks with
  | nil =>
    intro body consumed _
    simp [accumulateBody, concatChunks]
  | cons c rest ih =>
    intro body consumed h
    have hlen : (body ++ c).length = body.length + c.length :=
      String.length_append body c
    have hcap : ¬ 1024 * 64 < (body ++ c).length := by
      simp only [hlen]
      simp only [chunksLen, List.map_cons, List.sum_cons] at h
      omega
    rw [accumulateBody, if_neg hcap, ih]
    · rw [String.append_assoc]
      rfl
    · simp only [hlen, chunksLen, List.map_cons, List.sum_cons] at h ⊢
      omega

/-- When the total body exceeds the cap, accumulation destroys the
connection after some nonempty prefix of the chunks whose length already
exceeds the cap — the remaining chunks are never read. -/
lemma accumulateBody_over (chunks : List String) :
    ∀ (body : String) (consumed : Nat),
      body.length ≤ 1024 * 64 →
      1024 * 64 < body.length + chunksLen chunks →
      ∃ k, 1 ≤ k ∧ k ≤ chunks.length ∧
        accumulateBody body consumed chunks = .error (consumed + k) ∧
        1024 * 64 < body.length + chunksLen (chunks.take k) := by
  induction chunks with
  | nil =>
    intro body consumed hbody hover
    simp [chunksLen] at hover
    omega
  | cons c rest ih =>
    intro body consumed hbody hover
    have hlen : (body ++ c).length = body.length + c.length :=
      String.length_append body c
    by_cases hcap : 1024 * 64 < (body ++ c).length
    · refine ⟨1, le_refl 1, by simp, ?_, ?_⟩
      · rw [accumulateBody, if_pos hcap]
      · simp only [List.take_succ_cons, List.take_zero, chunksLen,
          List.map_cons, List.map_nil, List.sum_cons, List.sum_nil]
        omega
    · have hrest : 1024 * 64 < (body ++ c).length + chunksLen rest := by
        simp only [hlen, chunksLen, List.map_cons, List.sum_cons] at hover ⊢
        omega
      obtain ⟨k, hk1, hkle, hacc, hpre⟩ :=
        ih (body ++ c) (consumed + 1) (by omega) hrest
      refine ⟨k + 1, by omega, by simpa using Nat.succ_le_succ hkle,
        ?_, ?_⟩
      · rw [accumulateBody, if_neg hcap, hacc]
        congr 1
        omega
      · simp only [List.take_succ_cons, chunksLen, List.map_cons,
          List.sum_cons]
        simp only [hlen, chunksLen] at hpre ⊢
        omega

/-- C7: requests that are not `POST /notify` get 404; a body exceeding
the 64 KB cap destroys the connection after the chunk that crossed the
cap, reading no further chunk and playing no sound; a malformed
(nonempty, unparseable) body gets 400 with no sound; a parseable body
triggers one local sound play and a 204 with empty body, and closes the
server exactly when `--once` was given. -/
theorem handleRequest_spec :
    (∀ (method url : String) (chunks : List String)
        (parseOk : String → Bool) (once : Bool),
        ¬(method = "POST" ∧ url = "/notify") →
        handleRequest method url chunks parseOk once =
          .response 404 true false false) ∧
    (∀ (chunks : List String) (parseOk : String → Bool) (once : Bool),
        1024 * 64 < chunksLen chunks →
        ∃ k, 1 ≤ k ∧ k ≤ chunks.length ∧
          handleRequest "POST" "/notify" chunks parseOk once =
            .destroyed k ∧
          1024 * 64 < chunksLen (chunks.take k)) ∧
    (∀ (chunks : List String) (parseOk : String → Bool) (once : Bool),
        chunksLen chunks ≤ 1024 * 64 →
        concatChunks chunks ≠ "" →
        parseOk (concatChunks chunks) = false →
        handleRequest "POST" "/notify" chunks parseOk once =
          .response 400 true false false) ∧
    (∀ (chunks : List String) (parseOk : String → Bool) (once : Bool),
        chunksLen chunks ≤ 1024 * 64 →
        parseOk (concatChunks chunks) = true →
        handleRequest "POST" "/notify" chunks parseOk once =
          .response 204 true true once) := by
  refine ⟨?_, ?_, ?_, ?_⟩
  · intro method url chunks parseOk once h
    rw [handleRequest, if_pos h]
  · intro chunks parseOk once h
    obtain ⟨k, hk1, hkle, hacc, hpre⟩ :=
      accumulateBody_over chunks "" 0 (by simp) (by simpa using h)
    refine ⟨k, hk1, hkle, ?_, by simpa using hpre⟩
    rw [handleRequest, if_neg (by simp), hacc]
    simp
  · intro chunks parseOk once hlen hne hparse
    rw [handleRequest, if_neg (by simp),
      accumulateBody_ok chunks "" 0 (by simpa using hlen)]
    have : ("" : String) ++ concatChunks chunks = concatChunks chunks := by
      simp
    rw [this]
    simp [hne, hparse]
  · intro chunks parseOk once hlen hparse
    rw [handleRequest, if_neg (by simp),
      accumulateBody_ok chunks "" 0 (by simpa using hlen)]
    have : ("" : String) ++ concatChunks chunks = concatChunks chunks := by
      simp
    rw [this]
    simp [hparse]

/-- An oversized single chunk: 65537 copies of `x`. -/
def bigChunk : String := String.mk (List.replicate (1024 * 64 + 1) 'x')

lemma bigChunk_length : bigChunk.length = 1024 * 64 + 1 := by
  show (List.replicate (1024 * 64 + 1) 'x').length = 1024 * 64 + 1
  exact List.length_replicate _ _

theorem handleRequest_spec_witness :
    (handleRequest "GET" "/notify" [] (fun _ => true) false =
      .response 404 true false false) ∧
    (∃ k, 1 ≤ k ∧ k ≤ [bigChunk].length ∧
      handleRequest "POST" "/notify" [bigChunk] (fun _ => true) false =
        .destroyed k ∧
      1024 * 64 < chunksLen ([bigChunk].take k)) ∧
    (handleRequest "POST" "/notify" ["not json"] (fun _ => false) false =
      .response 400 true false false) ∧
    (handleRequest "POST" "/notify" ["\x7b\x7d"] (fun _ => true) true =
      .response 204 true true true) :=
  ⟨handleRequest_spec.1 "GET" "/notify" [] (fun _ => true) false
      (by simp),
   handleRequest_spec.2.1 [bigChunk] (fun _ => true) false
      (by simp [chunksLen, bigChunk_length]),
   handleRequest_spec.2.2.1 ["not json"] (fun _ => false) false
      (by decide) (by decide) rfl,
   handleRequest_spec.2.2.2 ["\x7b\x7d"] (fun _ => true) true
      (by decide) rfl⟩

/-! ### Configuration resolver (src/lib/config.js) -/

/-- The `webhook` section with its defaults (src/lib/config.js lines
19-23). -/
structure WebhookCfg where
  enabled : Bool := false
  url : Option String := none
  replaceSound : Bool := false
  deriving DecidableEq, Repr

/-- The constant `SOUND_TYPES.HARP` (src/lib/config.js line 10). -/
def SOUND_TYPES_HARP : String := "claude-notification"

/-- The constant `SOUND_TYPES.BELL` (src/lib/config.js line 11). -/
def SOUND_TYPES_BELL : String := "claude-notification-bell"

/-- The list `Object.values(SOUND_TYPES)`: the known sound asset keys. -/
def soundTypeValues : List String := [SOUND_TYPES_HARP, SOUND_TYPES_BELL]

/-- The user configuration document as parsed from `settings.json`:
every key optional (`none` = key absent).  The spread
`{...defaultConfig, ...userConfig}` is shallow, so nested sections
override wholesale. -/
structure UserConfig where
  sound : Option Bool := none
  soundType : Option String := none
  secondSound : Option Bool := none
  desktopNotification : Option Bool := none
  webhook : Option WebhookCfg := none
  remoteSound : Option RemoteSoundUserCfg := none
  deriving DecidableEq, Repr

/-- The document produced by `{...defaultConfig, ...userConfig}`: user
keys override the defaults shallowly; keys the defaults lack
(`secondSound`, `remoteSound`) survive only if present in the user
document. -/
structure MergedConfig where
  sound : Bool
  soundType : String
  desktopNotification : Bool
  webhook : WebhookCfg
  secondSound : Option Bool
  remoteSound : Option RemoteSoundUserCfg
  deriving DecidableEq, Repr

/-- The spread of the user document over the defaults of
src/lib/config.js lines 15-24. -/
def mergeConfig (u : UserConfig) : MergedConfig where
  sound := u.sound.getD true
  soundType := u.soundType.getD SOUND_TYPES_HARP
  desktopNotification := u.desktopNotification.getD false
  webhook := u.webhook.getD {}
  secondSound := u.secondSound
  remoteSound := u.remoteSound

/-- What the filesystem gave `getConfig`: no config file, an unreadable
or unparseable file, or a parsed user document. -/
inductive ConfigRead where
  | missing
  | parseError
  | parsed (u : UserConfig)
  deriving Repr

/-- Result of `getConfig()`: the returned configuration, the document it
attempted to write back (`some` exactly when a migration was applied;
write failures are logged, not thrown), whether the invalid-`soundType`
warning fired, and whether a read/parse error was logged. -/
structure GetConfigResult where
  config : MergedConfig
  persistAttempt : Option MergedConfig
  warnedInvalidSoundType : Bool
  loggedReadError : Bool
  deriving Repr

/-- Model of `getConfig()` (src/lib/config.js lines 14-67).  Migration 1: a
`secondSound: true` with a falsy `soundType` becomes
`soundType: BELL` and the `secondSound` key is deleted.  Migration 2: a
truthy `soundType` outside the known asset set is reset to the default
with a warning.  A migrated document is written back as
`{...defaultConfig, ...userConfig}`.  Read/parse errors are logged and
yield the defaults — the function never throws. -/
def getConfig (read : ConfigRead) : GetConfigResult :=
  match read with
  | .missing => ⟨mergeConfig {}, none, false, false⟩
  | .parseError => ⟨mergeConfig {}, none, false, true⟩
  | .parsed u =>
    let m1 := decide (u.secondSound = some true) && !(strTruthy u.soundType)
    let u1 :=
      if m1 then
        { u with soundType := some SOUND_TYPES_BELL, secondSound := none }
      else u
    let m2 := strTruthy u1.soundType &&
      !(soundTypeValues.contains (u1.soundType.getD ""))
    let u2 := if m2 then { u1 with soundType := some SOUND_TYPES_HARP }
      else u1
    let merged := mergeConfig u2
    ⟨merged, if m1 || m2 then some merged else none, m2, false⟩

/-! ### Claim C8 -/

/-- C8: loading `{secondSound: true}` without a `soundType` yields the
bell asset with `secondSound` removed and persists exactly the returned
document; loading a `soundType` outside the known asset set yields the
default asset with a warning and persists the correction; `getConfig`
is total and returns the defaults, logging, on a missing or unreadable
configuration. -/
theorem getConfig_migration :
    (∀ u : UserConfig, u.secondSound = some true → u.soundType = none →
        (getConfig (.parsed u)).config.soundType = SOUND_TYPES_BELL ∧
        (getConfig (.parsed u)).config.secondSound = none ∧
        (getConfig (.parsed u)).persistAttempt =
          some (getConfig (.parsed u)).config) ∧
    (∀ (u : UserConfig) (s : String), u.soundType = some s → s ≠ "" →
        soundTypeValues.contains s = false →
        (getConfig (.parsed u)).config.soundType = SOUND_TYPES_HARP ∧
        (getConfig (.parsed u)).warnedInvalidSoundType = true ∧
        (getConfig (.parsed u)).persistAttempt =
          some (getConfig (.parsed u)).config) ∧
    (getConfig .missing =
      ⟨mergeConfig {}, none, false, false⟩) ∧
    (getConfig .parseError =
      ⟨mergeConfig {}, none, false, true⟩) := by
  refine ⟨?_, ?_, rfl, rfl⟩
  · intro u hss hst
    simp [getConfig, hss, hst, strTruthy, soundTypeValues,
      SOUND_TYPES_BELL, SOUND_TYPES_HARP, mergeConfig]
  · intro u s hst hne hout
    have hbeq : (s == "") = false := by
      simpa using hne
    have hmem : s ∉ soundTypeValues := by
      simpa using hout
    simp [getConfig, hst, strTruthy, hbeq, hmem, mergeConfig]

theorem getConfig_migration_witness :
    ((getConfig (.parsed { secondSound := some true })).config.soundType =
        SOUND_TYPES_BELL ∧
      (getConfig
          (.parsed { secondSound := some true })).config.secondSound =
        none ∧
      (getConfig (.parsed { secondSound := some true })).persistAttempt =
        some (getConfig (.parsed { secondSound := some true })).config) ∧
    ((getConfig
          (.parsed { soundType := some "nonexistent-asset" })).config.soundType =
        SOUND_TYPES_HARP ∧
      (getConfig
          (.parsed
            { soundType := some "nonexistent-asset" })).warnedInvalidSoundType =
        true ∧
      (getConfig
          (.parsed { soundType := some "nonexistent-asset" })).persistAttempt =
        some (getConfig
          (.parsed { soundType := some "nonexistent-asset" })).config) :=
  ⟨getConfig_migration.1 { secondSound := some true } rfl rfl,
   getConfig_migration.2.1 { soundType := some "nonexistent-asset" }
      "nonexistent-asset" rfl (by decide) (by decide)⟩

/-! ### Sound dispatcher (bin/claude-notify.js lines 18-67 and the
remote-capable entry point src/unnamed/part_001 lines 51-83) -/

/-- The platform audio backends shelled out to. -/
inductive SoundBackend where
  | paplay
  | aplay
  | play
  | afplay
  deriving DecidableEq, Repr

/-- The value of `process.platform` as the dispatcher branches on it. -/
inductive Platform where
  | linux
  | darwin
  | other
  deriving DecidableEq, Repr

/-- Model of `playSound()` of src/bin/claude-notify.js lines 18-67.  `ok b` is
whether an invocation of backend `b` exits successfully; `f` is the
resolved sound file.  Returns the ordered list of (backend, file)
invocations issued and whether the terminal-bell fallback fired.  On
Linux the first `paplay` runs with `2>/dev/null || true` (its failure is
swallowed) and a second `paplay` of the same file always follows; only
the second one's failure falls through to `aplay`, then `play`, then the
bell. -/
def playSoundBin (soundOn fileExists : Bool) (platform : Platform)
    (ok : SoundBackend → Bool) (f : String) :
    List (SoundBackend × String) × Bool :=
  if !soundOn then ([], false)
  else if !fileExists then ([], true)
  else
    match platform with
    | .linux =>
      if ok .paplay then ([(.paplay, f), (.paplay, f)], false)
      else if ok .aplay then
        ([(.paplay, f), (.paplay, f), (.aplay, f)], false)
      else if ok .play then
        ([(.paplay, f), (.paplay, f), (.aplay, f), (.play, f)], false)
      else ([(.paplay, f), (.paplay, f), (.aplay, f), (.play, f)], true)
    | .darwin =>
      if ok .afplay then ([(.afplay, f)], false)
      else ([(.afplay, f)], true)
    | .other => ([], true)

/-- Model of the `playSound` variant of src/unnamed/part_001
lines 51-83.  Same oracle convention as `playSoundBin`.  This variant
issues a single `paplay` attempt (no double trigger), falls back to
`aplay` then `play`, and never emits the terminal bell; a missing sound
file only warns. -/
def playSoundEntry (soundOn fileExists : Bool) (platform : Platform)
    (ok : SoundBackend → Bool) (f : String) :
    List (SoundBackend × String) × Bool :=
  if !soundOn then ([], false)
  else if !fileExists then ([], false)
  else
    match platform with
    | .linux =>
      if ok .paplay then ([(.paplay, f)], false)
      else if ok .aplay then ([(.paplay, f), (.aplay, f)], false)
      else ([(.paplay, f), (.aplay, f), (.play, f)], false)
    | .darwin => ([(.afplay, f)], false)
    | .other => ([], false)

/-! ### Claim C9 -/

/-- C9 counterexample: the remote-capable entry point's `playSound`
(src/unnamed/part_001, one of the two implementations the claim covers)
issues exactly ONE `paplay` attempt on Linux for an existing asset when
`paplay` succeeds — not two back-to-back attempts. -/
theorem playSoundEntry_single_attempt_cex :
    (playSoundEntry true true .linux (fun _ => true)
        "claude-notification.wav").1 =
      [(.paplay, "claude-notification.wav")] ∧
    ¬((playSoundEntry true true .linux (fun _ => true)
        "claude-notification.wav").1.take 2 =
      [(.paplay, "claude-notification.wav"),
       (.paplay, "claude-notification.wav")]) := by
  decide

/-- C9 amended: only `bin/claude-notify.js`'s `playSound` issues the
double back-to-back `paplay` attempt of the same asset on Linux before
falling back to the other backends (it does so for every outcome
oracle); the remote-capable entry point's `playSound` issues a single
attempt per backend, starting with one `paplay`. -/
theorem playSound_double_trigger_amended :
    (∀ (ok : SoundBackend → Bool) (f : String),
        (playSoundBin true true .linux ok f).1.take 2 =
          [(.paplay, f), (.paplay, f)]) ∧
    (∀ (ok : SoundBackend → Bool) (f : String), ok .paplay = true →
        (playSoundEntry true true .linux ok f).1 = [(.paplay, f)]) := by
  constructor
  · intro ok f
    rw [playSoundBin]
    by_cases h1 : ok .paplay = true <;>
      by_cases h2 : ok .aplay = true <;>
      by_cases h3 : ok .play = true <;>
      simp [h1, h2, h3]
  · intro ok f h
    simp [playSoundEntry, h]

theorem playSound_double_trigger_amended_witness :
    ((playSoundBin true true .linux (fun _ => true)
        "claude-notification.wav").1.take 2 =
      [(.paplay, "claude-notification.wav"),
       (.paplay, "claude-notification.wav")]) ∧
    ((playSoundEntry true true .linux (fun _ => true)
        "claude-notification.wav").1 =
      [(.paplay, "claude-notification.wav")]) :=
  ⟨playSound_double_trigger_amended.1 (fun _ => true)
      "claude-notification.wav",
   playSound_double_trigger_amended.2 (fun _ => true)
      "claude-notification.wav" rfl⟩

/-! ### Orchestration of the notify entry points (claim C10) -/

/-- Which channels one default-mode run of the remote-capable entry
point's `main()` fired. -/
structure MainTrace where
  webhookAttempted : Bool
  remoteSoundConsulted : Bool
  localSoundPlayed : Bool
  desktopShown : Bool
  deriving DecidableEq, Repr

/-- Model of `main()` of src/unnamed/part_001 lines 399-429.  Config-dump and
listener modes return before any channel fires.  `remoteReplaced` is
what `await triggerRemoteSound(...)` returned when consulted.  The
Zellij visualization call (always attempted first, internally gated) is
independent of the four channels the claim is about and carries no state
into them. -/
def mainEntry (showConfig listenMode : Bool) (cfg : MergedConfig)
    (remoteReplaced : Bool) : MainTrace :=
  if showConfig then ⟨false, false, false, false⟩
  else if listenMode then ⟨false, false, false, false⟩
  else
    let shouldPlaySound := cfg.sound &&
      !(cfg.webhook.enabled && cfg.webhook.replaceSound)
    { webhookAttempted := cfg.webhook.enabled
      remoteSoundConsulted := shouldPlaySound
      localSoundPlayed := shouldPlaySound && !remoteReplaced
      desktopShown := !cfg.webhook.enabled && cfg.desktopNotification }

/-- Which channels one run of `main()` of src/bin/claude-notify.js
lines 176-193 fired (this entry point has no remote-sound channel;
`playSoundInvoked` records whether `playSound()` was called at all). -/
structure MainBinTrace where
  webhookAttempted : Bool
  playSoundInvoked : Bool
  desktopShown : Bool
  deriving DecidableEq, Repr

/-- Model of `main()` of src/bin/claude-notify.js lines 176-193. -/
def mainBin (showConfig : Bool) (cfg : MergedConfig) : MainBinTrace :=
  if showConfig then ⟨false, false, false⟩
  else if cfg.webhook.enabled then
    { webhookAttempted := true
      playSoundInvoked := !cfg.webhook.replaceSound
      desktopShown := false }
  else
    { webhookAttempted := false
      playSoundInvoked := true
      desktopShown := cfg.desktopNotification }

/-- C10: in default mode, in both notify entry points, an enabled
webhook suppresses the desktop banner (the banner fires only when the
webhook channel is disabled and `desktopNotification` is set), and an
enabled webhook with `replaceSound` suppresses all sound playback —
neither the remote relay is consulted nor a local play attempted. -/
theorem main_webhook_gating :
    (∀ (cfg : MergedConfig) (remoteReplaced : Bool),
        cfg.webhook.enabled = true →
        (mainEntry false false cfg remoteReplaced).desktopShown = false) ∧
    (∀ (cfg : MergedConfig) (remoteReplaced : Bool),
        (mainEntry false false cfg remoteReplaced).desktopShown = true →
        cfg.webhook.enabled = false ∧ cfg.desktopNotification = true) ∧
    (∀ (cfg : MergedConfig) (remoteReplaced : Bool),
        cfg.webhook.enabled = true → cfg.webhook.replaceSound = true →
        (mainEntry false false cfg
            remoteReplaced).remoteSoundConsulted = false ∧
        (mainEntry false false cfg remoteReplaced).localSoundPlayed =
          false) ∧
    (∀ cfg : MergedConfig, cfg.webhook.enabled = true →
        (mainBin false cfg).desktopShown = false ∧
        (cfg.webhook.replaceSound = true →
          (mainBin false cfg).playSoundInvoked = false)) := by
  refine ⟨?_, ?_, ?_, ?_⟩
  · intro cfg remoteReplaced h
    simp [mainEntry, h]
  · intro cfg remoteReplaced h
    simp [mainEntry] at h
    exact ⟨by simpa using h.1, h.2⟩
  · intro cfg remoteReplaced he hr
    simp [mainEntry, he, hr]
  · intro cfg h
    simp [mainBin, h]

/-- A configuration with webhook enabled, `replaceSound` set, and both
sound and desktop notifications switched on. -/
def cfgWebhookAll : MergedConfig :=
  { sound := true
    soundType := "claude-notification"
    desktopNotification := true
    webhook := { enabled := true, url := some "http://h/w",
                 replaceSound := true }
    secondSound := none
    remoteSound := none }

theorem main_webhook_gating_witness :
    ((mainEntry false false cfgWebhookAll true).desktopShown = false) ∧
    ((mainEntry false false cfgWebhookAll true).remoteSoundConsulted =
        false ∧
      (mainEntry false false cfgWebhookAll true).localSoundPlayed =
        false) ∧
    ((mainBin false cfgWebhookAll).desktopShown = false ∧
      (cfgWebhookAll.webhook.replaceSound = true →
        (mainBin false cfgWebhookAll).playSoundInvoked = false)) :=
  ⟨main_webhook_gating.1 cfgWebhookAll true rfl,
   main_webhook_gating.2.2.1 cfgWebhookAll true rfl rfl,
   main_webhook_gating.2.2.2 cfgWebhookAll rfl⟩

end ClaudeNotifications
